import Mathlib

/-!
# CategoryAndTransactionForm

A shallow embedding of `src/components/Transactions/TransactionForm.jsx`:
the two validation schemas, the two Formik forms, the two mutations and the
parts of the rendered output that depend on state (error notices, success
notices, inline field errors, and the options of the category selector).

The component is event driven.  Its state is an explicit record and every UI
event or promise settlement is one `step`.  Calls to collaborators
(`addCategoryAPI`, `addTransactionAPI`, `refetchCategories`, `navigate`) are
appended to an effect log.
-/

namespace TransactionForm

/-! ## JavaScript values (for rejected errors) -/

/-- A JavaScript value as far as the error notices inspect one: primitives and
plain objects with own properties.  Finite numbers are rationals. -/
inductive JSValue where
  | undefined
  | null
  | bool (b : Bool)
  | num (q : ℚ)
  | str (s : String)
  | obj (fields : List (String × JSValue))

namespace JSValue

/-- Property read `v[key]` on own properties; anything that is not a plain
object has none of the keys read by this component. -/
def get (v : JSValue) (key : String) : JSValue :=
  match v with
  | obj fields => (fields.lookup key).getD undefined
  | _ => undefined

/-- Optional chaining `v?.key`. -/
def optGet (v : JSValue) (key : String) : JSValue :=
  match v with
  | undefined => undefined
  | null => undefined
  | w => w.get key

/-- JavaScript truthiness. -/
def truthy (v : JSValue) : Bool :=
  match v with
  | undefined => false
  | null => false
  | bool b => b
  | num q => decide (q ≠ 0)
  | str s => decide (s ≠ "")
  | obj _ => true

/-- The operator `a || b`. -/
def or (a b : JSValue) : JSValue :=
  if a.truthy then a else b

end JSValue

/-- The expression `error?.response?.data?.message`. -/
def responseDataMessage (error : JSValue) : JSValue :=
  ((error.optGet "response").optGet "data").optGet "message"

/-- The expression `catAddError?.response?.data?.message || "Category add failed"`. -/
def catAddErrorMessage (catAddError : JSValue) : JSValue :=
  (responseDataMessage catAddError).or (JSValue.str "Category add failed")

/-- The expression `tranError?.response?.data?.message || "Transaction failed"`. -/
def tranErrorMessage (tranError : JSValue) : JSValue :=
  (responseDataMessage tranError).or (JSValue.str "Transaction failed")

/-! ## Form values -/

/-- The value of the `amount` field.  The input has `type="number"`, for which
Formik's change handler stores `parseFloat(value)`, or `""` when that is NaN. -/
inductive AmountValue where
  | empty
  | num (q : ℚ)
  deriving DecidableEq, Repr

/-- Values of the category form, `{ name, type }`. -/
structure CategoryValues where
  name : String
  type : String
  deriving DecidableEq, Repr

/-- Values of the transaction form, `{ type, amount, category, date, description }`. -/
structure TransactionValues where
  type : String
  amount : AmountValue
  category : String
  date : String
  description : String
  deriving DecidableEq, Repr

/-- Formik `errors` of the category form; `none` is an absent key. -/
structure CategoryErrors where
  name : Option String
  type : Option String
  deriving DecidableEq, Repr

/-- Formik `errors` of the transaction form; `none` is an absent key. -/
structure TransactionErrors where
  type : Option String
  amount : Option String
  category : Option String
  date : Option String
  description : Option String
  deriving DecidableEq, Repr

/-- Formik `touched` of the category form; `false` is an absent key. -/
structure CategoryTouched where
  name : Bool
  type : Bool
  deriving DecidableEq, Repr

/-- Formik `touched` of the transaction form; `false` is an absent key. -/
structure TransactionTouched where
  type : Bool
  amount : Bool
  category : Bool
  date : Bool
  description : Bool
  deriving DecidableEq, Repr

/-! ## Yup schemas -/

/-- What the date schema of Yup needs from its host: whether casting a
non-empty string (ISO parse, then `Date.parse`) gives a valid `Date`, and the
text of the type error reported when it does not. -/
structure DateLib where
  castValid : String → Bool
  notType : String → String

namespace Yup

/-- Formik `prepareDataForValidation` on a string field: `""` becomes `undefined`. -/
def prepareString (v : String) : Option String :=
  if v = "" then none else some v

/-- Formik `prepareDataForValidation` on the amount field. -/
def prepareAmount (v : AmountValue) : Option ℚ :=
  match v with
  | .empty => none
  | .num q => some q

/-- The test added by `string().required(message)`: fails on `undefined` and on
a string of length zero. -/
def stringRequired (message : String) (value : Option String) : List String :=
  match value with
  | none => [message]
  | some v => if v.length = 0 then [message] else []

/-- The test added by `.oneOf(enums)` with the default message; `undefined` passes. -/
def oneOf (path : String) (enums : List String) (value : Option String) : List String :=
  match value with
  | none => []
  | some v =>
    if enums.contains v then []
    else [path ++ " must be one of the following values: " ++ ", ".intercalate enums]

/-- The test added by `number().required(message)`. -/
def numberRequired (message : String) (value : Option ℚ) : List String :=
  match value with
  | none => [message]
  | some _ => []

/-- The test added by `.positive(message)`, that is `moreThan(0)`; `undefined` passes. -/
def positive (message : String) (value : Option ℚ) : List String :=
  match value with
  | none => []
  | some q => if q > 0 then [] else [message]

/-- Schema `Yup.string().required(m).oneOf(["income", "expense"])` at `path`.
The membership test runs with the initial tests; the remaining tests run only
when those pass. -/
def typeField (path message : String) (value : Option String) : List String :=
  let initial := oneOf path ["income", "expense"] value
  if initial.isEmpty then stringRequired message value else initial

/-- Schema `Yup.number().required(m).positive("Must be positive")`. -/
def amountField (value : Option ℚ) : List String :=
  numberRequired "Amount is required" value ++ positive "Must be positive" value

/-- Schema `Yup.date().required("Date is required")`: a string that does not
cast to a valid date fails the type check before any other test. -/
def dateField (lib : DateLib) (value : Option String) : List String :=
  match value with
  | none => ["Date is required"]
  | some v => if lib.castValid v then [] else [lib.notType v]

/-- Schema `Yup.string()`. -/
def descriptionField (_value : Option String) : List String := []

end Yup

/-- Formik validation with `categoryValidationSchema`: the values are prepared,
validated with `abortEarly: false`, and the first message of each path kept. -/
def categoryValidationSchema (values : CategoryValues) : CategoryErrors :=
  { name := (Yup.stringRequired "Category name is required" (Yup.prepareString values.name)).head?
    type := (Yup.typeField "type" "Category type is required" (Yup.prepareString values.type)).head? }

/-- Formik validation with `transactionValidationSchema`. -/
def transactionValidationSchema (lib : DateLib) (values : TransactionValues) : TransactionErrors :=
  { type := (Yup.typeField "type" "Transaction type is required" (Yup.prepareString values.type)).head?
    amount := (Yup.amountField (Yup.prepareAmount values.amount)).head?
    category := (Yup.stringRequired "Category is required" (Yup.prepareString values.category)).head?
    date := (Yup.dateField lib (Yup.prepareString values.date)).head?
    description := (Yup.descriptionField (Yup.prepareString values.description)).head? }

/-- No key in the errors object of the category form. -/
def CategoryErrors.isEmpty (e : CategoryErrors) : Bool :=
  e.name.isNone && e.type.isNone

/-- No key in the errors object of the transaction form. -/
def TransactionErrors.isEmpty (e : TransactionErrors) : Bool :=
  e.type.isNone && e.amount.isNone && e.category.isNone && e.date.isNone && e.description.isNone

/-! ## Component state -/

/-- The part of a Formik form's state that the component reads or resets. -/
structure FormikState (Values Touched Errors : Type) where
  values : Values
  touched : Touched
  errors : Errors
  isSubmitting : Bool
  submitCount : Nat

/-- Status of the mutation followed by a `useMutation` observer. -/
inductive MutationStatus where
  | idle
  | pending
  | success
  | error
  deriving DecidableEq, Repr

/-- Result of `useMutation`: the state of the latest mutation started. -/
structure MutationResult where
  status : MutationStatus
  error : JSValue
  current : Option Nat

/-- An item of the list returned by `listCategoriesAPI`. -/
structure Category where
  _id : String
  name : String
  type : String
  deriving DecidableEq, Repr

/-- A call made by the component to a collaborator. -/
inductive Effect where
  | addCategoryAPI (id : Nat) (payload : CategoryValues)
  | addTransactionAPI (id : Nat) (payload : TransactionValues)
  | refetchCategories
  | navigate (route : String)
  deriving DecidableEq, Repr

/-- State of one mounted `CategoryAndTransactionForm`. -/
structure State where
  categories : Option (List Category)
  categoryFormik : FormikState CategoryValues CategoryTouched CategoryErrors
  transactionFormik : FormikState TransactionValues TransactionTouched TransactionErrors
  catMutation : MutationResult
  tranMutation : MutationResult
  catInFlight : List Nat
  tranInFlight : List Nat
  nextId : Nat
  effects : List Effect

/-- Formik state from `initialValues: { name: "", type: "" }`; also the result of `resetForm()`. -/
def categoryFormikInitial : FormikState CategoryValues CategoryTouched CategoryErrors :=
  { values := { name := "", type := "" }
    touched := { name := false, type := false }
    errors := { name := none, type := none }
    isSubmitting := false
    submitCount := 0 }

/-- Formik state from the initial values of the transaction form. -/
def transactionFormikInitial : FormikState TransactionValues TransactionTouched TransactionErrors :=
  { values := { type := "", amount := .empty, category := "", date := "", description := "" }
    touched := { type := false, amount := false, category := false, date := false, description := false }
    errors := { type := none, amount := none, category := none, date := none, description := none }
    isSubmitting := false
    submitCount := 0 }

/-- A mutation observer before any `mutateAsync`. -/
def mutationIdle : MutationResult :=
  { status := .idle, error := .null, current := none }

/-- The component right after mounting: the category query has no data yet. -/
def State.initial : State :=
  { categories := none
    categoryFormik := categoryFormikInitial
    transactionFormik := transactionFormikInitial
    catMutation := mutationIdle
    tranMutation := mutationIdle
    catInFlight := []
    tranInFlight := []
    nextId := 0
    effects := [] }

/-! ## Events -/

/-- A field of the category form. -/
inductive CategoryField where
  | name
  | type
  deriving DecidableEq, Repr

/-- A field of the transaction form. -/
inductive TransactionField where
  | type
  | amount
  | category
  | date
  | description
  deriving DecidableEq, Repr

/-- What can happen to the mounted component. -/
inductive Event where
  | categoriesFetched (data : List Category)
  | changeCategoryName (value : String)
  | changeCategoryType (value : String)
  | blurCategory (field : CategoryField)
  | submitCategory
  | addCategoryResolved (id : Nat)
  | addCategoryRejected (id : Nat) (error : JSValue)
  | changeTransactionType (value : String)
  | changeTransactionAmount (value : AmountValue)
  | changeTransactionCategory (value : String)
  | changeTransactionDate (value : String)
  | changeTransactionDescription (value : String)
  | blurTransaction (field : TransactionField)
  | submitTransaction
  | addTransactionResolved (id : Nat)
  | addTransactionRejected (id : Nat) (error : JSValue)

/-- Formik `setFieldValue` on the category form, with `validateOnChange`. -/
def setCategoryValues (s : State) (values : CategoryValues) : State :=
  { s with categoryFormik :=
      { s.categoryFormik with values := values, errors := categoryValidationSchema values } }

/-- Formik `setFieldTouched` on the category form, with `validateOnBlur`. -/
def touchCategory (s : State) (field : CategoryField) : State :=
  let f := s.categoryFormik
  let touched : CategoryTouched :=
    match field with
    | .name => { f.touched with name := true }
    | .type => { f.touched with type := true }
  { s with categoryFormik :=
      { f with touched := touched, errors := categoryValidationSchema f.values } }

/-- Formik `setFieldValue` on the transaction form, with `validateOnChange`. -/
def setTransactionValues (lib : DateLib) (s : State) (values : TransactionValues) : State :=
  { s with transactionFormik :=
      { s.transactionFormik with values := values, errors := transactionValidationSchema lib values } }

/-- Formik `setFieldTouched` on the transaction form, with `validateOnBlur`. -/
def touchTransaction (lib : DateLib) (s : State) (field : TransactionField) : State :=
  let f := s.transactionFormik
  let touched : TransactionTouched :=
    match field with
    | .type => { f.touched with type := true }
    | .amount => { f.touched with amount := true }
    | .category => { f.touched with category := true }
    | .date => { f.touched with date := true }
    | .description => { f.touched with description := true }
  { s with transactionFormik :=
      { f with touched := touched, errors := transactionValidationSchema lib f.values } }

/-- Handler `categoryFormik.handleSubmit`: every field is marked touched, the
values are validated, and `onSubmit` runs `addCategory(values)` only when the
errors object is empty.  `mutateAsync` starts a fresh mutation, which the
observer follows from then on, and calls `addCategoryAPI` once. -/
def submitCategory (s : State) : State :=
  let f := s.categoryFormik
  let errors := categoryValidationSchema f.values
  let attempted : FormikState CategoryValues CategoryTouched CategoryErrors :=
    { f with
      touched := { name := true, type := true }
      errors := errors
      submitCount := f.submitCount + 1 }
  if errors.isEmpty then
    { s with
      categoryFormik := { attempted with isSubmitting := true }
      catMutation := { status := .pending, error := .null, current := some s.nextId }
      catInFlight := s.catInFlight ++ [s.nextId]
      nextId := s.nextId + 1
      effects := s.effects ++ [.addCategoryAPI s.nextId f.values] }
  else
    { s with categoryFormik := { attempted with isSubmitting := false } }

/-- Settlement of call `id` of `addCategoryAPI` with success: `onSuccess` runs
`refetchCategories()` and `categoryFormik.resetForm()`; the observer shows
success when it still follows this mutation. -/
def addCategoryResolved (s : State) (id : Nat) : State :=
  if id ∈ s.catInFlight then
    { s with
      catInFlight := s.catInFlight.erase id
      effects := s.effects ++ [.refetchCategories]
      categoryFormik := categoryFormikInitial
      catMutation :=
        if s.catMutation.current = some id then
          { s.catMutation with status := .success }
        else s.catMutation }
  else s

/-- Settlement of call `id` of `addCategoryAPI` with rejection `error`: there
is no `onError`, and mutations are not retried. -/
def addCategoryRejected (s : State) (id : Nat) (error : JSValue) : State :=
  if id ∈ s.catInFlight then
    { s with
      catInFlight := s.catInFlight.erase id
      categoryFormik := { s.categoryFormik with isSubmitting := false }
      catMutation :=
        if s.catMutation.current = some id then
          { s.catMutation with status := .error, error := error }
        else s.catMutation }
  else s

/-- Handler `transactionFormik.handleSubmit`, with `onSubmit` running
`addTransaction(values)`. -/
def submitTransaction (lib : DateLib) (s : State) : State :=
  let f := s.transactionFormik
  let errors := transactionValidationSchema lib f.values
  let attempted : FormikState TransactionValues TransactionTouched TransactionErrors :=
    { f with
      touched := { type := true, amount := true, category := true, date := true, description := true }
      errors := errors
      submitCount := f.submitCount + 1 }
  if errors.isEmpty then
    { s with
      transactionFormik := { attempted with isSubmitting := true }
      tranMutation := { status := .pending, error := .null, current := some s.nextId }
      tranInFlight := s.tranInFlight ++ [s.nextId]
      nextId := s.nextId + 1
      effects := s.effects ++ [.addTransactionAPI s.nextId f.values] }
  else
    { s with transactionFormik := { attempted with isSubmitting := false } }

/-- Settlement of call `id` of `addTransactionAPI` with success: `onSuccess`
runs `navigate("/dashboard")`. -/
def addTransactionResolved (s : State) (id : Nat) : State :=
  if id ∈ s.tranInFlight then
    { s with
      tranInFlight := s.tranInFlight.erase id
      effects := s.effects ++ [.navigate "/dashboard"]
      transactionFormik := { s.transactionFormik with isSubmitting := false }
      tranMutation :=
        if s.tranMutation.current = some id then
          { s.tranMutation with status := .success }
        else s.tranMutation }
  else s

/-- Settlement of call `id` of `addTransactionAPI` with rejection `error`. -/
def addTransactionRejected (s : State) (id : Nat) (error : JSValue) : State :=
  if id ∈ s.tranInFlight then
    { s with
      tranInFlight := s.tranInFlight.erase id
      transactionFormik := { s.transactionFormik with isSubmitting := false }
      tranMutation :=
        if s.tranMutation.current = some id then
          { s.tranMutation with status := .error, error := error }
        else s.tranMutation }
  else s

/-- One event of the component. -/
def step (lib : DateLib) (s : State) (e : Event) : State :=
  match e with
  | .categoriesFetched data => { s with categories := some data }
  | .changeCategoryName v => setCategoryValues s { s.categoryFormik.values with name := v }
  | .changeCategoryType v => setCategoryValues s { s.categoryFormik.values with type := v }
  | .blurCategory field => touchCategory s field
  | .submitCategory => submitCategory s
  | .addCategoryResolved id => addCategoryResolved s id
  | .addCategoryRejected id error => addCategoryRejected s id error
  | .changeTransactionType v => setTransactionValues lib s { s.transactionFormik.values with type := v }
  | .changeTransactionAmount v => setTransactionValues lib s { s.transactionFormik.values with amount := v }
  | .changeTransactionCategory v =>
      setTransactionValues lib s { s.transactionFormik.values with category := v }
  | .changeTransactionDate v => setTransactionValues lib s { s.transactionFormik.values with date := v }
  | .changeTransactionDescription v =>
      setTransactionValues lib s { s.transactionFormik.values with description := v }
  | .blurTransaction field => touchTransaction lib s field
  | .submitTransaction => submitTransaction lib s
  | .addTransactionResolved id => addTransactionResolved s id
  | .addTransactionRejected id error => addTransactionRejected s id error

/-- The states the mounted component can be in. -/
inductive Reachable (lib : DateLib) : State → Prop where
  | initial : Reachable lib State.initial
  | step (s : State) (e : Event) : Reachable lib s → Reachable lib (step lib s e)

/-! ## Rendered output -/

/-- Inline error `touched.f && errors.f && <p>{errors.f}</p>`: the text shown, if any. -/
def fieldError (touched : Bool) (error : Option String) : Option String :=
  if touched then
    match error with
    | some m => if m ≠ "" then some m else none
    | none => none
  else none

/-- Flag `isSuccess` of the category mutation. -/
def isCatSuccess (s : State) : Bool :=
  decide (s.catMutation.status = .success)

/-- Flag `isError` of the category mutation. -/
def isCatAddErr (s : State) : Bool :=
  decide (s.catMutation.status = .error)

/-- Flag `isSuccess` of the transaction mutation. -/
def isTranSuccess (s : State) : Bool :=
  decide (s.tranMutation.status = .success)

/-- Flag `isError` of the transaction mutation. -/
def isTranErr (s : State) : Bool :=
  decide (s.tranMutation.status = .error)

/-- Message of the error notice of the category form, rendered when `isCatAddErr`. -/
def catErrorNotice (s : State) : Option JSValue :=
  if isCatAddErr s then some (catAddErrorMessage s.catMutation.error) else none

/-- Message of the success notice of the category form, rendered when `isCatSuccess`. -/
def catSuccessNotice (s : State) : Option String :=
  if isCatSuccess s then some "Category added successfully" else none

/-- Message of the error notice of the transaction form, rendered when `isTranErr`. -/
def tranErrorNotice (s : State) : Option JSValue :=
  if isTranErr s then some (tranErrorMessage s.tranMutation.error) else none

/-- Message of the success notice of the transaction form, rendered when `isTranSuccess`. -/
def tranSuccessNotice (s : State) : Option String :=
  if isTranSuccess s then some "Transaction added successfully" else none

/-- An `<option>` element: its `value` and its text. -/
structure SelectOption where
  value : String
  text : String
  deriving DecidableEq, Repr

/-- Options of both `type` selectors. -/
def typeOptions : List SelectOption :=
  [⟨"", "Select type"⟩, ⟨"income", "Income"⟩, ⟨"expense", "Expense"⟩]

/-- Options of the category selector: the placeholder, then `categories?.map(...)`. -/
def categoryOptions (categories : Option (List Category)) : List SelectOption :=
  ⟨"", "Select a category"⟩ ::
    match categories with
    | none => []
    | some cats => cats.map fun cat => ⟨cat.name, cat.name⟩

/-- Calls of `addCategoryAPI` in an effect log. -/
def categoryCalls (effects : List Effect) : List CategoryValues :=
  effects.filterMap fun e =>
    match e with
    | .addCategoryAPI _ payload => some payload
    | _ => none

/-- Calls of `addTransactionAPI` in an effect log. -/
def transactionCalls (effects : List Effect) : List TransactionValues :=
  effects.filterMap fun e =>
    match e with
    | .addTransactionAPI _ payload => some payload
    | _ => none

/-- Calls of `navigate` in an effect log. -/
def navigations (effects : List Effect) : List String :=
  effects.filterMap fun e =>
    match e with
    | .navigate route => some route
    | _ => none

/-- Number of calls of `refetchCategories` in an effect log. -/
def refetches (effects : List Effect) : Nat :=
  effects.count .refetchCategories

/-- While an observer shows `pending`, the call it follows has not settled. -/
def PendingInFlight (s : State) : Prop :=
  (s.catMutation.status = .pending →
    ∃ id, s.catMutation.current = some id ∧ id ∈ s.catInFlight) ∧
  (s.tranMutation.status = .pending →
    ∃ id, s.tranMutation.current = some id ∧ id ∈ s.tranInFlight)

/-- A host whose date cast accepts exactly the date-only form `dddd-dd-dd`
(which the ISO parse of Yup matches, and which `Date` normalises for any
digits), with the type error text of Yup for other strings. -/
def DateLib.dateOnly : DateLib :=
  { castValid := fun v =>
      match v.data with
      | [y1, y2, y3, y4, '-', m1, m2, '-', d1, d2] =>
          [y1, y2, y3, y4, m1, m2, d1, d2].all Char.isDigit
      | _ => false
    notType := fun v =>
      "date must be a `date` type, but the final value was: `Invalid Date` (cast from the value `\""
        ++ v ++ "\"`)." }

/-! ## Validation lemmas -/

theorem String.length_ne_zero_of_ne_empty (v : String) (h : v ≠ "") : v.length ≠ 0 := by
  intro h0
  apply h
  cases v with
  | mk data =>
    have : data = [] := List.length_eq_zero.mp h0
    subst this
    rfl

theorem Yup.stringRequired_prepare (message v : String) :
    (Yup.stringRequired message (Yup.prepareString v)).head? =
      if v = "" then some message else none := by
  unfold Yup.stringRequired Yup.prepareString
  by_cases h : v = ""
  · simp [h]
  · simp [h, String.length_ne_zero_of_ne_empty v h]

theorem Yup.typeField_prepare (path message v : String) :
    (Yup.typeField path message (Yup.prepareString v)).head? =
      if v = "" then some message
      else if v = "income" ∨ v = "expense" then none
      else some (path ++ " must be one of the following values: " ++
        ", ".intercalate ["income", "expense"]) := by
  unfold Yup.typeField Yup.oneOf Yup.stringRequired Yup.prepareString
  by_cases h : v = ""
  · simp [h]
  · by_cases h2 : v = "income" ∨ v = "expense"
    · have h3 : ["income", "expense"].contains v = true := by
        simpa using h2
      simp [h, h2, h3, String.length_ne_zero_of_ne_empty v h]
    · have h3 : ¬ (["income", "expense"].contains v = true) := by
        simpa using h2
      simp [h, h2, h3]

theorem Yup.amountField_prepare (a : AmountValue) :
    (Yup.amountField (Yup.prepareAmount a)).head? =
      match a with
      | .empty => some "Amount is required"
      | .num q => if 0 < q then none else some "Must be positive" := by
  cases a with
  | empty => rfl
  | num q =>
    by_cases h : 0 < q <;> simp [Yup.amountField, Yup.prepareAmount, Yup.numberRequired, Yup.positive, h]

theorem Yup.dateField_prepare (lib : DateLib) (v : String) :
    (Yup.dateField lib (Yup.prepareString v)).head? =
      if v = "" then some "Date is required"
      else if lib.castValid v = true then none else some (lib.notType v) := by
  unfold Yup.dateField Yup.prepareString
  by_cases h : v = ""
  · simp [h]
  · by_cases h2 : lib.castValid v = true <;> simp [h, h2]

/-- The category values pass validation exactly when the name is not empty and
the type is one of the two literals. -/
theorem categoryValid_iff (v : CategoryValues) :
    (categoryValidationSchema v).isEmpty = true ↔
      v.name ≠ "" ∧ (v.type = "income" ∨ v.type = "expense") := by
  unfold categoryValidationSchema CategoryErrors.isEmpty
  rw [Yup.stringRequired_prepare, Yup.typeField_prepare]
  by_cases h1 : v.name = "" <;> by_cases h2 : v.type = ""
    <;> by_cases h3 : v.type = "income" ∨ v.type = "expense"
    <;> simp [h1, h2, h3]

/-- The transaction values pass validation exactly when the type is one of the
two literals, the amount is a number above zero, the category is not empty and
the date is a non-empty string that casts to a valid date. -/
theorem transactionValid_iff (lib : DateLib) (v : TransactionValues) :
    (transactionValidationSchema lib v).isEmpty = true ↔
      (v.type = "income" ∨ v.type = "expense") ∧ (∃ q, v.amount = .num q ∧ 0 < q) ∧
        v.category ≠ "" ∧ v.date ≠ "" ∧ lib.castValid v.date = true := by
  unfold transactionValidationSchema TransactionErrors.isEmpty
  rw [Yup.stringRequired_prepare, Yup.typeField_prepare, Yup.amountField_prepare,
    Yup.dateField_prepare]
  cases ha : v.amount with
  | empty => simp [Yup.descriptionField]
  | num q =>
    by_cases h1 : v.category = "" <;> by_cases h2 : v.type = ""
      <;> by_cases h3 : v.type = "income" ∨ v.type = "expense"
      <;> by_cases h4 : v.date = "" <;> by_cases h5 : lib.castValid v.date = true
      <;> by_cases h6 : 0 < q
      <;> simp [h1, h2, h3, h4, h5, h6, Yup.descriptionField]

/-! ## Submit handlers, by outcome of validation -/

theorem submitCategory_of_invalid (s : State)
    (h : (categoryValidationSchema s.categoryFormik.values).isEmpty = false) :
    submitCategory s =
      { s with categoryFormik :=
          { s.categoryFormik with
            touched := { name := true, type := true }
            errors := categoryValidationSchema s.categoryFormik.values
            submitCount := s.categoryFormik.submitCount + 1
            isSubmitting := false } } := by
  simp [submitCategory, h]

theorem submitCategory_of_valid (s : State)
    (h : (categoryValidationSchema s.categoryFormik.values).isEmpty = true) :
    submitCategory s =
      { s with
        categoryFormik :=
          { s.categoryFormik with
            touched := { name := true, type := true }
            errors := categoryValidationSchema s.categoryFormik.values
            submitCount := s.categoryFormik.submitCount + 1
            isSubmitting := true }
        catMutation := { status := .pending, error := .null, current := some s.nextId }
        catInFlight := s.catInFlight ++ [s.nextId]
        nextId := s.nextId + 1
        effects := s.effects ++ [.addCategoryAPI s.nextId s.categoryFormik.values] } := by
  simp [submitCategory, h]

theorem submitTransaction_of_invalid (lib : DateLib) (s : State)
    (h : (transactionValidationSchema lib s.transactionFormik.values).isEmpty = false) :
    submitTransaction lib s =
      { s with transactionFormik :=
          { s.transactionFormik with
            touched :=
              { type := true, amount := true, category := true, date := true, description := true }
            errors := transactionValidationSchema lib s.transactionFormik.values
            submitCount := s.transactionFormik.submitCount + 1
            isSubmitting := false } } := by
  simp [submitTransaction, h]

theorem submitTransaction_of_valid (lib : DateLib) (s : State)
    (h : (transactionValidationSchema lib s.transactionFormik.values).isEmpty = true) :
    submitTransaction lib s =
      { s with
        transactionFormik :=
          { s.transactionFormik with
            touched :=
              { type := true, amount := true, category := true, date := true, description := true }
            errors := transactionValidationSchema lib s.transactionFormik.values
            submitCount := s.transactionFormik.submitCount + 1
            isSubmitting := true }
        tranMutation := { status := .pending, error := .null, current := some s.nextId }
        tranInFlight := s.tranInFlight ++ [s.nextId]
        nextId := s.nextId + 1
        effects := s.effects ++ [.addTransactionAPI s.nextId s.transactionFormik.values] } := by
  simp [submitTransaction, h]

/-- Whatever the outcome, a submit of the category form stores the validation
result and marks every field touched. -/
theorem submitCategory_formik (s : State) :
    (submitCategory s).categoryFormik.errors = categoryValidationSchema s.categoryFormik.values ∧
    (submitCategory s).categoryFormik.touched = { name := true, type := true } ∧
    (submitCategory s).categoryFormik.values = s.categoryFormik.values := by
  cases h : (categoryValidationSchema s.categoryFormik.values).isEmpty
  · rw [submitCategory_of_invalid s h]; exact ⟨rfl, rfl, rfl⟩
  · rw [submitCategory_of_valid s h]; exact ⟨rfl, rfl, rfl⟩

/-- Whatever the outcome, a submit of the transaction form stores the
validation result and marks every field touched. -/
theorem submitTransaction_formik (lib : DateLib) (s : State) :
    (submitTransaction lib s).transactionFormik.errors =
      transactionValidationSchema lib s.transactionFormik.values ∧
    (submitTransaction lib s).transactionFormik.touched =
      { type := true, amount := true, category := true, date := true, description := true } ∧
    (submitTransaction lib s).transactionFormik.values = s.transactionFormik.values := by
  cases h : (transactionValidationSchema lib s.transactionFormik.values).isEmpty
  · rw [submitTransaction_of_invalid lib s h]; exact ⟨rfl, rfl, rfl⟩
  · rw [submitTransaction_of_valid lib s h]; exact ⟨rfl, rfl, rfl⟩

theorem categoryValidation_name (v : CategoryValues) :
    (categoryValidationSchema v).name =
      if v.name = "" then some "Category name is required" else none :=
  Yup.stringRequired_prepare _ _

theorem transactionValidation_amount (lib : DateLib) (v : TransactionValues) :
    (transactionValidationSchema lib v).amount =
      match v.amount with
      | .empty => some "Amount is required"
      | .num q => if 0 < q then none else some "Must be positive" :=
  Yup.amountField_prepare _

theorem isEmpty_false_of_name (e : CategoryErrors) (m : String) (h : e.name = some m) :
    e.isEmpty = false := by
  simp [CategoryErrors.isEmpty, h]

theorem isEmpty_false_of_amount (e : TransactionErrors) (m : String) (h : e.amount = some m) :
    e.isEmpty = false := by
  simp [TransactionErrors.isEmpty, h]

/-! ## Settlement handlers, for a call in flight -/

theorem addCategoryResolved_of_mem (s : State) (id : Nat) (h : id ∈ s.catInFlight) :
    addCategoryResolved s id =
      { s with
        catInFlight := s.catInFlight.erase id
        effects := s.effects ++ [.refetchCategories]
        categoryFormik := categoryFormikInitial
        catMutation :=
          if s.catMutation.current = some id then
            { s.catMutation with status := .success }
          else s.catMutation } := by
  simp [addCategoryResolved, h]

theorem addCategoryRejected_of_mem (s : State) (id : Nat) (error : JSValue)
    (h : id ∈ s.catInFlight) :
    addCategoryRejected s id error =
      { s with
        catInFlight := s.catInFlight.erase id
        categoryFormik := { s.categoryFormik with isSubmitting := false }
        catMutation :=
          if s.catMutation.current = some id then
            { s.catMutation with status := .error, error := error }
          else s.catMutation } := by
  simp [addCategoryRejected, h]

theorem addTransactionResolved_of_mem (s : State) (id : Nat) (h : id ∈ s.tranInFlight) :
    addTransactionResolved s id =
      { s with
        tranInFlight := s.tranInFlight.erase id
        effects := s.effects ++ [.navigate "/dashboard"]
        transactionFormik := { s.transactionFormik with isSubmitting := false }
        tranMutation :=
          if s.tranMutation.current = some id then
            { s.tranMutation with status := .success }
          else s.tranMutation } := by
  simp [addTransactionResolved, h]

theorem addTransactionRejected_of_mem (s : State) (id : Nat) (error : JSValue)
    (h : id ∈ s.tranInFlight) :
    addTransactionRejected s id error =
      { s with
        tranInFlight := s.tranInFlight.erase id
        transactionFormik := { s.transactionFormik with isSubmitting := false }
        tranMutation :=
          if s.tranMutation.current = some id then
            { s.tranMutation with status := .error, error := error }
          else s.tranMutation } := by
  simp [addTransactionRejected, h]

/-- The call issued by a valid submit of the category form is in flight and is
the one the observer follows. -/
theorem submitCategory_inFlight (s : State)
    (h : (categoryValidationSchema s.categoryFormik.values).isEmpty = true) :
    s.nextId ∈ (submitCategory s).catInFlight ∧
    (submitCategory s).catMutation.current = some s.nextId := by
  rw [submitCategory_of_valid s h]
  exact ⟨by simp, rfl⟩

/-- The call issued by a valid submit of the transaction form is in flight and
is the one the observer follows. -/
theorem submitTransaction_inFlight (lib : DateLib) (s : State)
    (h : (transactionValidationSchema lib s.transactionFormik.values).isEmpty = true) :
    s.nextId ∈ (submitTransaction lib s).tranInFlight ∧
    (submitTransaction lib s).tranMutation.current = some s.nextId := by
  rw [submitTransaction_of_valid lib s h]
  exact ⟨by simp, rfl⟩

theorem navigations_append (xs ys : List Effect) :
    navigations (xs ++ ys) = navigations xs ++ navigations ys := by
  simp [navigations, List.filterMap_append]

theorem categoryCalls_append (xs ys : List Effect) :
    categoryCalls (xs ++ ys) = categoryCalls xs ++ categoryCalls ys := by
  simp [categoryCalls, List.filterMap_append]

theorem transactionCalls_append (xs ys : List Effect) :
    transactionCalls (xs ++ ys) = transactionCalls xs ++ transactionCalls ys := by
  simp [transactionCalls, List.filterMap_append]

theorem refetches_append (xs ys : List Effect) :
    refetches (xs ++ ys) = refetches xs + refetches ys := by
  simp [refetches, List.count_append]

/-! ### The nested message of a rejection -/

theorem responseDataMessage_absent (error : JSValue)
    (h : error = .undefined ∨ error = .null ∨
      error.optGet "response" = .undefined ∨ error.optGet "response" = .null ∨
      (error.optGet "response").optGet "data" = .undefined ∨
      (error.optGet "response").optGet "data" = .null) :
    responseDataMessage error = .undefined := by
  unfold responseDataMessage
  rcases h with h | h | h | h | h | h <;> rw [h] <;> rfl

theorem or_of_truthy (a b : JSValue) (h : a.truthy = true) : a.or b = a := by
  simp [JSValue.or, h]

theorem or_of_not_truthy (a b : JSValue) (h : a.truthy = false) : a.or b = b := by
  simp [JSValue.or, h]

/-! ## An invariant of the reachable states -/

theorem pendingInFlight_initial : PendingInFlight State.initial := by
  constructor <;> intro h <;> exact absurd h (by decide)

theorem pendingInFlight_submitCategory (s : State) (h : PendingInFlight s) :
    PendingInFlight (submitCategory s) := by
  cases hv : (categoryValidationSchema s.categoryFormik.values).isEmpty
  · rw [submitCategory_of_invalid s hv]; exact h
  · rw [submitCategory_of_valid s hv]
    exact ⟨fun _ => ⟨s.nextId, rfl, by simp⟩, h.2⟩

theorem pendingInFlight_submitTransaction (lib : DateLib) (s : State) (h : PendingInFlight s) :
    PendingInFlight (submitTransaction lib s) := by
  cases hv : (transactionValidationSchema lib s.transactionFormik.values).isEmpty
  · rw [submitTransaction_of_invalid lib s hv]; exact h
  · rw [submitTransaction_of_valid lib s hv]
    exact ⟨h.1, fun _ => ⟨s.nextId, rfl, by simp⟩⟩

theorem pendingInFlight_addCategoryResolved (s : State) (id : Nat) (h : PendingInFlight s) :
    PendingInFlight (addCategoryResolved s id) := by
  by_cases hm : id ∈ s.catInFlight
  · rw [addCategoryResolved_of_mem s id hm]
    refine ⟨?_, h.2⟩
    by_cases hc : s.catMutation.current = some id
    · intro hp
      simp [hc] at hp
    · intro hp
      simp only [hc, if_false] at hp ⊢
      obtain ⟨j, hj, hjm⟩ := h.1 hp
      refine ⟨j, hj, (List.mem_erase_of_ne ?_).mpr hjm⟩
      intro hji
      exact hc (by rw [hj, hji])
  · simp [addCategoryResolved, hm]; exact h

theorem pendingInFlight_addCategoryRejected (s : State) (id : Nat) (error : JSValue)
    (h : PendingInFlight s) : PendingInFlight (addCategoryRejected s id error) := by
  by_cases hm : id ∈ s.catInFlight
  · rw [addCategoryRejected_of_mem s id error hm]
    refine ⟨?_, h.2⟩
    by_cases hc : s.catMutation.current = some id
    · intro hp
      simp [hc] at hp
    · intro hp
      simp only [hc, if_false] at hp ⊢
      obtain ⟨j, hj, hjm⟩ := h.1 hp
      refine ⟨j, hj, (List.mem_erase_of_ne ?_).mpr hjm⟩
      intro hji
      exact hc (by rw [hj, hji])
  · simp [addCategoryRejected, hm]; exact h

theorem pendingInFlight_addTransactionResolved (s : State) (id : Nat) (h : PendingInFlight s) :
    PendingInFlight (addTransactionResolved s id) := by
  by_cases hm : id ∈ s.tranInFlight
  · rw [addTransactionResolved_of_mem s id hm]
    refine ⟨h.1, ?_⟩
    by_cases hc : s.tranMutation.current = some id
    · intro hp
      simp [hc] at hp
    · intro hp
      simp only [hc, if_false] at hp ⊢
      obtain ⟨j, hj, hjm⟩ := h.2 hp
      refine ⟨j, hj, (List.mem_erase_of_ne ?_).mpr hjm⟩
      intro hji
      exact hc (by rw [hj, hji])
  · simp [addTransactionResolved, hm]; exact h

theorem pendingInFlight_addTransactionRejected (s : State) (id : Nat) (error : JSValue)
    (h : PendingInFlight s) : PendingInFlight (addTransactionRejected s id error) := by
  by_cases hm : id ∈ s.tranInFlight
  · rw [addTransactionRejected_of_mem s id error hm]
    refine ⟨h.1, ?_⟩
    by_cases hc : s.tranMutation.current = some id
    · intro hp
      simp [hc] at hp
    · intro hp
      simp only [hc, if_false] at hp ⊢
      obtain ⟨j, hj, hjm⟩ := h.2 hp
      refine ⟨j, hj, (List.mem_erase_of_ne ?_).mpr hjm⟩
      intro hji
      exact hc (by rw [hj, hji])
  · simp [addTransactionRejected, hm]; exact h

theorem pendingInFlight_step (lib : DateLib) (s : State) (e : Event) (h : PendingInFlight s) :
    PendingInFlight (step lib s e) := by
  cases e with
  | categoriesFetched data => exact h
  | changeCategoryName v => exact h
  | changeCategoryType v => exact h
  | blurCategory field => exact h
  | submitCategory => exact pendingInFlight_submitCategory s h
  | addCategoryResolved id => exact pendingInFlight_addCategoryResolved s id h
  | addCategoryRejected id error => exact pendingInFlight_addCategoryRejected s id error h
  | changeTransactionType v => exact h
  | changeTransactionAmount v => exact h
  | changeTransactionCategory v => exact h
  | changeTransactionDate v => exact h
  | changeTransactionDescription v => exact h
  | blurTransaction field => exact h
  | submitTransaction => exact pendingInFlight_submitTransaction lib s h
  | addTransactionResolved id => exact pendingInFlight_addTransactionResolved s id h
  | addTransactionRejected id error => exact pendingInFlight_addTransactionRejected s id error h

theorem pendingInFlight_of_reachable (lib : DateLib) (s : State) (h : Reachable lib s) :
    PendingInFlight s := by
  induction h with
  | initial => exact pendingInFlight_initial
  | step s e _ ih => exact pendingInFlight_step lib s e ih

/-! ## Claims -/

/-- C1: submitting the category form while the name is `""`, whatever the type,
adds no call of `addCategoryAPI` (the effect log and the calls in flight are
unchanged); the error stored for `name` is exactly "Category name is required",
the submit attempt marks `name` touched so that this text is displayed, and
while the field is untouched nothing is displayed. -/
theorem c1_empty_name_blocks_createCategory (lib : DateLib) (s : State) (type : String)
    (h : s.categoryFormik.values = { name := "", type := type }) :
    (step lib s .submitCategory).effects = s.effects ∧
    categoryCalls (step lib s .submitCategory).effects = categoryCalls s.effects ∧
    (step lib s .submitCategory).catInFlight = s.catInFlight ∧
    (categoryValidationSchema { name := "", type := type }).name =
      some "Category name is required" ∧
    (step lib s .submitCategory).categoryFormik.errors.name =
      some "Category name is required" ∧
    (step lib s .submitCategory).categoryFormik.touched.name = true ∧
    fieldError (step lib s .submitCategory).categoryFormik.touched.name
      (step lib s .submitCategory).categoryFormik.errors.name =
      some "Category name is required" ∧
    fieldError false (step lib s .submitCategory).categoryFormik.errors.name = none := by
  have hn : (categoryValidationSchema s.categoryFormik.values).name =
      some "Category name is required" := by
    rw [categoryValidation_name, h]; rfl
  have hinv := isEmpty_false_of_name _ _ hn
  have hf := submitCategory_formik s
  have hstep : step lib s .submitCategory = submitCategory s := rfl
  rw [hstep]
  have he : (submitCategory s).categoryFormik.errors.name = some "Category name is required" := by
    rw [hf.1, hn]
  have ht : (submitCategory s).categoryFormik.touched.name = true := by
    rw [hf.2.1]
  refine ⟨?_, ?_, ?_, ?_, he, ht, ?_, ?_⟩
  · rw [submitCategory_of_invalid s hinv]
  · rw [submitCategory_of_invalid s hinv]
  · rw [submitCategory_of_invalid s hinv]
  · rw [← h]; exact hn
  · rw [he, ht]; rfl
  · rfl

/-- Witness of C1 at a freshly mounted form on which "income" was selected. -/
theorem c1_empty_name_blocks_createCategory_witness :
    (step DateLib.dateOnly State.initial (.changeCategoryType "income")).categoryFormik.values =
        { name := "", type := "income" } ∧
    categoryCalls (step DateLib.dateOnly
        (step DateLib.dateOnly State.initial (.changeCategoryType "income"))
        .submitCategory).effects = [] ∧
    fieldError
      (step DateLib.dateOnly (step DateLib.dateOnly State.initial (.changeCategoryType "income"))
        .submitCategory).categoryFormik.touched.name
      (step DateLib.dateOnly (step DateLib.dateOnly State.initial (.changeCategoryType "income"))
        .submitCategory).categoryFormik.errors.name = some "Category name is required" :=
  ⟨rfl,
    (c1_empty_name_blocks_createCategory DateLib.dateOnly
      (step DateLib.dateOnly State.initial (.changeCategoryType "income")) "income" rfl).2.1,
    (c1_empty_name_blocks_createCategory DateLib.dateOnly
      (step DateLib.dateOnly State.initial (.changeCategoryType "income")) "income" rfl).2.2.2.2.2.2.1⟩

/-- C2: when the amount field holds a number `q`, then for `q ≤ 0` (so for -5
and for 0), whatever the other fields hold, validation reports exactly
"Must be positive" on `amount`, a submit adds no call of `addTransactionAPI`
and displays that text; for `q > 0` no error is reported on `amount`. -/
theorem c2_amount_must_be_positive (lib : DateLib) (s : State) (q : ℚ)
    (h : s.transactionFormik.values.amount = .num q) :
    (q ≤ 0 →
      (transactionValidationSchema lib s.transactionFormik.values).amount =
        some "Must be positive" ∧
      (transactionValidationSchema lib s.transactionFormik.values).isEmpty = false ∧
      (step lib s .submitTransaction).effects = s.effects ∧
      (step lib s .submitTransaction).tranInFlight = s.tranInFlight ∧
      (step lib s .submitTransaction).transactionFormik.errors.amount =
        some "Must be positive" ∧
      fieldError (step lib s .submitTransaction).transactionFormik.touched.amount
        (step lib s .submitTransaction).transactionFormik.errors.amount =
        some "Must be positive") ∧
    (0 < q →
      (transactionValidationSchema lib s.transactionFormik.values).amount = none ∧
      (step lib s .submitTransaction).transactionFormik.errors.amount = none ∧
      fieldError (step lib s .submitTransaction).transactionFormik.touched.amount
        (step lib s .submitTransaction).transactionFormik.errors.amount = none) := by
  have hstep : step lib s .submitTransaction = submitTransaction lib s := rfl
  have hf := submitTransaction_formik lib s
  have ha := transactionValidation_amount lib s.transactionFormik.values
  rw [h] at ha
  rw [hstep]
  constructor
  · intro hq
    have hn : (transactionValidationSchema lib s.transactionFormik.values).amount =
        some "Must be positive" := by
      rw [ha]; simp [not_lt.mpr hq]
    have hinv := isEmpty_false_of_amount _ _ hn
    have he : (submitTransaction lib s).transactionFormik.errors.amount =
        some "Must be positive" := by
      rw [hf.1, hn]
    refine ⟨hn, hinv, ?_, ?_, he, ?_⟩
    · rw [submitTransaction_of_invalid lib s hinv]
    · rw [submitTransaction_of_invalid lib s hinv]
    · rw [he, hf.2.1]; rfl
  · intro hq
    have hn : (transactionValidationSchema lib s.transactionFormik.values).amount = none := by
      rw [ha]; simp [hq]
    have he : (submitTransaction lib s).transactionFormik.errors.amount = none := by
      rw [hf.1, hn]
    refine ⟨hn, he, ?_⟩
    rw [he, hf.2.1]; rfl

/-- Witness of C2: amounts -5 and 0 on an otherwise valid form, then amount 5. -/
theorem c2_amount_must_be_positive_witness :
    fieldError
      (step DateLib.dateOnly
        { State.initial with transactionFormik :=
            { transactionFormikInitial with
              values := ⟨"expense", .num (-5), "Groceries", "2024-01-15", "weekly"⟩ } }
        .submitTransaction).transactionFormik.touched.amount
      (step DateLib.dateOnly
        { State.initial with transactionFormik :=
            { transactionFormikInitial with
              values := ⟨"expense", .num (-5), "Groceries", "2024-01-15", "weekly"⟩ } }
        .submitTransaction).transactionFormik.errors.amount = some "Must be positive" ∧
    (step DateLib.dateOnly
        { State.initial with transactionFormik :=
            { transactionFormikInitial with
              values := ⟨"expense", .num 0, "Groceries", "2024-01-15", "weekly"⟩ } }
        .submitTransaction).effects = [] ∧
    (step DateLib.dateOnly
        { State.initial with transactionFormik :=
            { transactionFormikInitial with
              values := ⟨"expense", .num 5, "Groceries", "2024-01-15", "weekly"⟩ } }
        .submitTransaction).transactionFormik.errors.amount = none :=
  ⟨((c2_amount_must_be_positive DateLib.dateOnly
      { State.initial with transactionFormik :=
          { transactionFormikInitial with
            values := ⟨"expense", .num (-5), "Groceries", "2024-01-15", "weekly"⟩ } }
      (-5) rfl).1 (by decide)).2.2.2.2.2,
    ((c2_amount_must_be_positive DateLib.dateOnly
      { State.initial with transactionFormik :=
          { transactionFormikInitial with
            values := ⟨"expense", .num 0, "Groceries", "2024-01-15", "weekly"⟩ } }
      0 rfl).1 (by decide)).2.2.1,
    ((c2_amount_must_be_positive DateLib.dateOnly
      { State.initial with transactionFormik :=
          { transactionFormikInitial with
            values := ⟨"expense", .num 5, "Groceries", "2024-01-15", "weekly"⟩ } }
      5 rfl).2 (by decide)).2.1⟩

/-- C6: transaction values pass `transactionValidationSchema` exactly when the
type is "income" or "expense", the amount is a number above zero, the category
is a non-empty string and the date is a non-empty string that casts to a valid
date; the description never yields an error and changing it never changes the
outcome; the outcome of a submit is the same for every category list, so values
naming a category that is not in the list are still sent. -/
theorem c6_transaction_validation (lib : DateLib) (v : TransactionValues) :
    ((transactionValidationSchema lib v).isEmpty = true ↔
      (v.type = "income" ∨ v.type = "expense") ∧ (∃ q, v.amount = .num q ∧ 0 < q) ∧
        v.category ≠ "" ∧ v.date ≠ "" ∧ lib.castValid v.date = true) ∧
    (∀ d : String, (transactionValidationSchema lib { v with description := d }).description = none) ∧
    (∀ d : String, (transactionValidationSchema lib { v with description := d }).isEmpty =
      (transactionValidationSchema lib v).isEmpty) ∧
    (∀ (s : State) (cats : Option (List Category)),
      (step lib { s with categories := cats } .submitTransaction).transactionFormik.errors =
        transactionValidationSchema lib s.transactionFormik.values) ∧
    (∀ (s : State) (cats : Option (List Category)), s.transactionFormik.values = v →
      (transactionValidationSchema lib v).isEmpty = true →
      (step lib { s with categories := cats } .submitTransaction).effects =
        s.effects ++ [.addTransactionAPI s.nextId v]) := by
  refine ⟨transactionValid_iff lib v, fun d => rfl, fun d => rfl, ?_, ?_⟩
  · intro s cats
    exact (submitTransaction_formik lib { s with categories := cats }).1
  · intro s cats hv hvalid
    have hstep : step lib { s with categories := cats } .submitTransaction =
        submitTransaction lib { s with categories := cats } := rfl
    have h2 : (transactionValidationSchema lib
        ({ s with categories := cats } : State).transactionFormik.values).isEmpty = true := by
      show (transactionValidationSchema lib s.transactionFormik.values).isEmpty = true
      rw [hv]; exact hvalid
    rw [hstep, submitTransaction_of_valid lib _ h2]
    show s.effects ++ [Effect.addTransactionAPI s.nextId s.transactionFormik.values] = _
    rw [hv]

/-- Witness of C6: valid values naming a category while the list is empty. -/
theorem c6_transaction_validation_witness :
    (transactionValidationSchema DateLib.dateOnly
      ⟨"expense", .num 5, "Groceries", "2024-01-15", ""⟩).isEmpty = true ∧
    (step DateLib.dateOnly
        { ({ State.initial with transactionFormik :=
            { transactionFormikInitial with
              values := ⟨"expense", .num 5, "Groceries", "2024-01-15", ""⟩ } } : State) with
          categories := some [] }
        .submitTransaction).effects =
      [.addTransactionAPI 0 ⟨"expense", .num 5, "Groceries", "2024-01-15", ""⟩] :=
  ⟨by decide,
    (c6_transaction_validation DateLib.dateOnly
      ⟨"expense", .num 5, "Groceries", "2024-01-15", ""⟩).2.2.2.2
      { State.initial with transactionFormik :=
          { transactionFormikInitial with
            values := ⟨"expense", .num 5, "Groceries", "2024-01-15", ""⟩ } }
      (some []) rfl (by decide)⟩

/-- C7: category values pass `categoryValidationSchema` exactly when the name is
a non-empty string and the type is "income" or "expense"; the type "invalid" is
rejected for every name, although no option of the selector has that value; and
a submit of values that fail validation adds no call of `addCategoryAPI`. -/
theorem c7_category_validation (lib : DateLib) (v : CategoryValues) :
    ((categoryValidationSchema v).isEmpty = true ↔
      v.name ≠ "" ∧ (v.type = "income" ∨ v.type = "expense")) ∧
    (∀ name : String, (categoryValidationSchema { name := name, type := "invalid" }).isEmpty = false) ∧
    (∀ o ∈ typeOptions, o.value ≠ "invalid") ∧
    (∀ s : State, s.categoryFormik.values = v → (categoryValidationSchema v).isEmpty = false →
      (step lib s .submitCategory).effects = s.effects ∧
      categoryCalls (step lib s .submitCategory).effects = categoryCalls s.effects ∧
      (step lib s .submitCategory).catInFlight = s.catInFlight ∧
      (step lib s .submitCategory).catMutation.status = s.catMutation.status) := by
  refine ⟨categoryValid_iff v, ?_, by decide, ?_⟩
  · intro name
    cases h : (categoryValidationSchema { name := name, type := "invalid" }).isEmpty
    · rfl
    · have h2 : "invalid" = "income" ∨ "invalid" = "expense" := ((categoryValid_iff _).mp h).2
      exact absurd h2 (by decide)
  · intro s hv hinv
    have hstep : step lib s .submitCategory = submitCategory s := rfl
    rw [← hv] at hinv
    rw [hstep, submitCategory_of_invalid s hinv]
    exact ⟨rfl, rfl, rfl, rfl⟩

/-- Witness of C7: the form holding the type "invalid" is submitted. -/
theorem c7_category_validation_witness :
    (categoryValidationSchema { name := "Groceries", type := "invalid" }).isEmpty = false ∧
    categoryCalls (step DateLib.dateOnly
      { State.initial with categoryFormik :=
          { categoryFormikInitial with values := { name := "Groceries", type := "invalid" } } }
      .submitCategory).effects = [] :=
  ⟨by decide,
    ((c7_category_validation DateLib.dateOnly { name := "Groceries", type := "invalid" }).2.2.2
      { State.initial with categoryFormik :=
          { categoryFormikInitial with values := { name := "Groceries", type := "invalid" } } }
      rfl (by decide)).2.1⟩

/-- Counterexample to C3 as stated: `addTransactionAPI` rejects with
`{response: {data: {message: ""}}}`, an error that carries the nested message
string `""`, and the notice shows "Transaction failed", which is not that string. -/
theorem c3_counterexample_empty_message :
    responseDataMessage
        (.obj [("response", .obj [("data", .obj [("message", .str "")])])]) = .str "" ∧
    tranErrorNotice
      (step DateLib.dateOnly
        (step DateLib.dateOnly
          { State.initial with transactionFormik :=
              { transactionFormikInitial with
                values := ⟨"expense", .num 5, "Groceries", "2024-01-15", ""⟩ } }
          .submitTransaction)
        (.addTransactionRejected 0
          (.obj [("response", .obj [("data", .obj [("message", .str "")])])]))) =
      some (.str "Transaction failed") ∧
    JSValue.str "Transaction failed" ≠ JSValue.str "" := by
  refine ⟨rfl, ?_, ?_⟩
  · have hv : (transactionValidationSchema DateLib.dateOnly
        (⟨"expense", .num 5, "Groceries", "2024-01-15", ""⟩ : TransactionValues)).isEmpty = true := by
      decide
    simp [step, submitTransaction, addTransactionRejected, hv, tranErrorNotice, isTranErr,
      transactionFormikInitial, State.initial, tranErrorMessage, responseDataMessage,
      JSValue.optGet, JSValue.get, JSValue.or, JSValue.truthy, List.lookup]
  · intro h
    injection h with h
    exact absurd h (by decide)

/-- C3, amended: when the call followed by the observer is rejected with
`error`, the notice of that form shows `error?.response?.data?.message || fallback`.
That is the nested message `m` itself whenever it is a non-empty string, and the
fallback ("Transaction failed", resp. "Category add failed") whenever the nested
message is `undefined`, `null` or the empty string; the nested message is
`undefined` whenever the error, its `response` or the `data` of that is absent. -/
theorem c3_error_notice_text (lib : DateLib) (s : State) (id : Nat) (error : JSValue) :
    (id ∈ s.tranInFlight → s.tranMutation.current = some id →
      tranErrorNotice (step lib s (.addTransactionRejected id error)) =
        some (tranErrorMessage error)) ∧
    (id ∈ s.catInFlight → s.catMutation.current = some id →
      catErrorNotice (step lib s (.addCategoryRejected id error)) =
        some (catAddErrorMessage error)) ∧
    (∀ m : String, responseDataMessage error = .str m → m ≠ "" →
      tranErrorMessage error = .str m ∧ catAddErrorMessage error = .str m) ∧
    (responseDataMessage error = .undefined ∨ responseDataMessage error = .null ∨
        responseDataMessage error = .str "" →
      tranErrorMessage error = .str "Transaction failed" ∧
      catAddErrorMessage error = .str "Category add failed") ∧
    (error = .undefined ∨ error = .null ∨
        error.optGet "response" = .undefined ∨ error.optGet "response" = .null ∨
        (error.optGet "response").optGet "data" = .undefined ∨
        (error.optGet "response").optGet "data" = .null →
      responseDataMessage error = .undefined) := by
  refine ⟨?_, ?_, ?_, ?_, responseDataMessage_absent error⟩
  · intro hmem hcur
    show tranErrorNotice (addTransactionRejected s id error) = _
    rw [addTransactionRejected_of_mem s id error hmem]
    simp [tranErrorNotice, isTranErr, hcur]
  · intro hmem hcur
    show catErrorNotice (addCategoryRejected s id error) = _
    rw [addCategoryRejected_of_mem s id error hmem]
    simp [catErrorNotice, isCatAddErr, hcur]
  · intro m hm hne
    have ht : (responseDataMessage error).truthy = true := by
      rw [hm]; simp [JSValue.truthy, hne]
    unfold tranErrorMessage catAddErrorMessage
    rw [or_of_truthy _ _ ht, or_of_truthy _ _ ht]
    exact ⟨hm, hm⟩
  · intro h
    have ht : (responseDataMessage error).truthy = false := by
      rcases h with h | h | h <;> rw [h] <;> rfl
    unfold tranErrorMessage catAddErrorMessage
    rw [or_of_not_truthy _ _ ht, or_of_not_truthy _ _ ht]
    exact ⟨rfl, rfl⟩

/-- Witness of C3, amended: a rejection carrying "Insufficient category". -/
theorem c3_error_notice_text_witness :
    tranErrorNotice
      (step DateLib.dateOnly
        { State.initial with
          tranInFlight := [0]
          tranMutation := { status := .pending, error := .null, current := some 0 }
          nextId := 1 }
        (.addTransactionRejected 0
          (.obj [("response", .obj [("data", .obj [("message", .str "Insufficient category")])])]))) =
      some (tranErrorMessage
        (.obj [("response", .obj [("data", .obj [("message", .str "Insufficient category")])])])) ∧
    tranErrorMessage
        (.obj [("response", .obj [("data", .obj [("message", .str "Insufficient category")])])]) =
      .str "Insufficient category" ∧
    tranErrorMessage (.obj [("response", .obj [])]) = .str "Transaction failed" :=
  ⟨(c3_error_notice_text DateLib.dateOnly
      { State.initial with
        tranInFlight := [0]
        tranMutation := { status := .pending, error := .null, current := some 0 }
        nextId := 1 }
      0 (.obj [("response", .obj [("data", .obj [("message", .str "Insufficient category")])])])).1
      (by decide) rfl,
    ((c3_error_notice_text DateLib.dateOnly State.initial 0
      (.obj [("response", .obj [("data", .obj [("message", .str "Insufficient category")])])])).2.2.1
      "Insufficient category" rfl (by decide)).1,
    ((c3_error_notice_text DateLib.dateOnly State.initial 0
      (.obj [("response", .obj [])])).2.2.2.1 (Or.inl rfl)).1⟩

/-- C4: for every valid payload, a submit of the category form followed by the
success of its call refetches the category list once, leaves the form with the
initial values `{name: "", type: ""}`, no field touched and no field error, and
shows the success notice "Category added successfully" (and no error notice). -/
theorem c4_category_success_resets (lib : DateLib) (s : State)
    (h : (categoryValidationSchema s.categoryFormik.values).isEmpty = true) :
    (step lib s .submitCategory).effects =
      s.effects ++ [.addCategoryAPI s.nextId s.categoryFormik.values] ∧
    (step lib (step lib s .submitCategory) (.addCategoryResolved s.nextId)).effects =
      (step lib s .submitCategory).effects ++ [.refetchCategories] ∧
    refetches (step lib (step lib s .submitCategory) (.addCategoryResolved s.nextId)).effects =
      refetches s.effects + 1 ∧
    (step lib (step lib s .submitCategory) (.addCategoryResolved s.nextId)).categoryFormik.values =
      { name := "", type := "" } ∧
    (step lib (step lib s .submitCategory) (.addCategoryResolved s.nextId)).categoryFormik.touched =
      { name := false, type := false } ∧
    (step lib (step lib s .submitCategory) (.addCategoryResolved s.nextId)).categoryFormik.errors =
      { name := none, type := none } ∧
    catSuccessNotice (step lib (step lib s .submitCategory) (.addCategoryResolved s.nextId)) =
      some "Category added successfully" ∧
    catErrorNotice (step lib (step lib s .submitCategory) (.addCategoryResolved s.nextId)) =
      none := by
  have hfl := submitCategory_inFlight s h
  have h1 : step lib s .submitCategory = submitCategory s := rfl
  have h2 : step lib (submitCategory s) (.addCategoryResolved s.nextId) =
      addCategoryResolved (submitCategory s) s.nextId := rfl
  rw [h1, h2, addCategoryResolved_of_mem _ _ hfl.1]
  have he : (submitCategory s).effects =
      s.effects ++ [.addCategoryAPI s.nextId s.categoryFormik.values] := by
    rw [submitCategory_of_valid s h]
  refine ⟨he, rfl, ?_, rfl, rfl, rfl, ?_, ?_⟩
  · show refetches ((submitCategory s).effects ++ [Effect.refetchCategories]) = _
    rw [he, refetches_append, refetches_append]
    rfl
  · simp [catSuccessNotice, isCatSuccess, hfl.2]
  · simp [catErrorNotice, isCatAddErr, hfl.2]

/-- Witness of C4 with the payload `{name: "Groceries", type: "expense"}`. -/
theorem c4_category_success_resets_witness :
    (categoryValidationSchema { name := "Groceries", type := "expense" }).isEmpty = true ∧
    (step DateLib.dateOnly
      (step DateLib.dateOnly
        { State.initial with categoryFormik :=
            { categoryFormikInitial with values := { name := "Groceries", type := "expense" } } }
        .submitCategory)
      (.addCategoryResolved 0)).effects =
      [.addCategoryAPI 0 { name := "Groceries", type := "expense" }, .refetchCategories] ∧
    (step DateLib.dateOnly
      (step DateLib.dateOnly
        { State.initial with categoryFormik :=
            { categoryFormikInitial with values := { name := "Groceries", type := "expense" } } }
        .submitCategory)
      (.addCategoryResolved 0)).categoryFormik.values = { name := "", type := "" } :=
  ⟨by decide,
    (c4_category_success_resets DateLib.dateOnly
      { State.initial with categoryFormik :=
          { categoryFormikInitial with values := { name := "Groceries", type := "expense" } } }
      (by decide)).2.1,
    (c4_category_success_resets DateLib.dateOnly
      { State.initial with categoryFormik :=
          { categoryFormikInitial with values := { name := "Groceries", type := "expense" } } }
      (by decide)).2.2.2.1⟩

/-- C5: a submit of valid transaction values whose call succeeds adds exactly
one navigation, to "/dashboard"; a submit whose call is rejected, and a submit
blocked by validation, add no navigation. -/
theorem c5_transaction_success_navigates (lib : DateLib) (s : State) :
    ((transactionValidationSchema lib s.transactionFormik.values).isEmpty = true →
      navigations
          (step lib (step lib s .submitTransaction) (.addTransactionResolved s.nextId)).effects =
        navigations s.effects ++ ["/dashboard"] ∧
      (step lib (step lib s .submitTransaction) (.addTransactionResolved s.nextId)).effects =
        s.effects ++ [.addTransactionAPI s.nextId s.transactionFormik.values,
          .navigate "/dashboard"] ∧
      ∀ error : JSValue,
        navigations
            (step lib (step lib s .submitTransaction)
              (.addTransactionRejected s.nextId error)).effects =
          navigations s.effects) ∧
    ((transactionValidationSchema lib s.transactionFormik.values).isEmpty = false →
      navigations (step lib s .submitTransaction).effects = navigations s.effects ∧
      (step lib s .submitTransaction).effects = s.effects ∧
      (step lib s .submitTransaction).tranInFlight = s.tranInFlight) := by
  have h1 : step lib s .submitTransaction = submitTransaction lib s := rfl
  constructor
  · intro h
    have hfl := submitTransaction_inFlight lib s h
    have he : (submitTransaction lib s).effects =
        s.effects ++ [.addTransactionAPI s.nextId s.transactionFormik.values] := by
      rw [submitTransaction_of_valid lib s h]
    have h2 : step lib (submitTransaction lib s) (.addTransactionResolved s.nextId) =
        addTransactionResolved (submitTransaction lib s) s.nextId := rfl
    rw [h1, h2, addTransactionResolved_of_mem _ _ hfl.1]
    refine ⟨?_, ?_, ?_⟩
    · show navigations ((submitTransaction lib s).effects ++ [Effect.navigate "/dashboard"]) = _
      rw [he, navigations_append, navigations_append]
      simp [navigations]
    · show (submitTransaction lib s).effects ++ [Effect.navigate "/dashboard"] = _
      rw [he]; simp
    · intro error
      have h3 : step lib (submitTransaction lib s) (.addTransactionRejected s.nextId error) =
          addTransactionRejected (submitTransaction lib s) s.nextId error := rfl
      rw [h3, addTransactionRejected_of_mem _ _ _ hfl.1]
      show navigations (submitTransaction lib s).effects = _
      rw [he, navigations_append]
      simp [navigations]
  · intro h
    rw [h1, submitTransaction_of_invalid lib s h]
    exact ⟨rfl, rfl, rfl⟩

/-- Witness of C5: one valid submit from the initial state, resolved; and a
submit of the untouched form. -/
theorem c5_transaction_success_navigates_witness :
    navigations
        (step DateLib.dateOnly
          (step DateLib.dateOnly
            { State.initial with transactionFormik :=
                { transactionFormikInitial with
                  values := ⟨"expense", .num 5, "Groceries", "2024-01-15", ""⟩ } }
            .submitTransaction)
          (.addTransactionResolved 0)).effects = ["/dashboard"] ∧
    navigations (step DateLib.dateOnly State.initial .submitTransaction).effects = [] :=
  ⟨((c5_transaction_success_navigates DateLib.dateOnly
      { State.initial with transactionFormik :=
          { transactionFormikInitial with
            values := ⟨"expense", .num 5, "Groceries", "2024-01-15", ""⟩ } }).1 (by decide)).1,
    ((c5_transaction_success_navigates DateLib.dateOnly State.initial).2 (by decide)).1⟩

/-- C8: for every category list delivered by the query, the options of the
category selector are the placeholder (value `""`) followed by one option per
category, in list order, with the name of the category as value and as label;
with an empty list, and before any list has arrived, only the placeholder is
rendered. -/
theorem c8_category_selector_options (lib : DateLib) (s : State) (cats : List Category) :
    categoryOptions (step lib s (.categoriesFetched cats)).categories =
      ⟨"", "Select a category"⟩ :: cats.map (fun cat => ⟨cat.name, cat.name⟩) ∧
    (categoryOptions (some cats)).length = cats.length + 1 ∧
    (categoryOptions (some cats))[0]? = some ⟨"", "Select a category"⟩ ∧
    (∀ i : Fin cats.length,
      (categoryOptions (some cats))[i.val + 1]? =
        some ⟨(cats.get i).name, (cats.get i).name⟩) ∧
    categoryOptions (some []) = [⟨"", "Select a category"⟩] ∧
    categoryOptions none = [⟨"", "Select a category"⟩] ∧
    categoryOptions State.initial.categories = [⟨"", "Select a category"⟩] := by
  refine ⟨rfl, by simp [categoryOptions], by simp [categoryOptions], ?_, rfl, rfl, rfl⟩
  intro i
  simp [categoryOptions]

/-- C9: when the call of a valid submit is rejected, in either form, the field
values are still the values that were sent, touched flags and field errors are
as the submit left them, the rejection adds no effect (no refetch, no
navigation), the error notice is shown, and a further submit of the form
issues a new call with the same values. -/
theorem c9_rejection_keeps_form (lib : DateLib) (s : State) (error : JSValue) :
    ((categoryValidationSchema s.categoryFormik.values).isEmpty = true →
      (step lib s .submitCategory).effects =
        s.effects ++ [.addCategoryAPI s.nextId s.categoryFormik.values] ∧
      (step lib (step lib s .submitCategory) (.addCategoryRejected s.nextId error)).categoryFormik.values =
        s.categoryFormik.values ∧
      (step lib (step lib s .submitCategory) (.addCategoryRejected s.nextId error)).categoryFormik.touched =
        (step lib s .submitCategory).categoryFormik.touched ∧
      (step lib (step lib s .submitCategory) (.addCategoryRejected s.nextId error)).categoryFormik.errors =
        (step lib s .submitCategory).categoryFormik.errors ∧
      (step lib (step lib s .submitCategory) (.addCategoryRejected s.nextId error)).effects =
        (step lib s .submitCategory).effects ∧
      catErrorNotice (step lib (step lib s .submitCategory) (.addCategoryRejected s.nextId error)) =
        some (catAddErrorMessage error) ∧
      (step lib (step lib (step lib s .submitCategory) (.addCategoryRejected s.nextId error))
          .submitCategory).effects =
        (step lib s .submitCategory).effects ++
          [.addCategoryAPI (s.nextId + 1) s.categoryFormik.values]) ∧
    ((transactionValidationSchema lib s.transactionFormik.values).isEmpty = true →
      (step lib s .submitTransaction).effects =
        s.effects ++ [.addTransactionAPI s.nextId s.transactionFormik.values] ∧
      (step lib (step lib s .submitTransaction)
          (.addTransactionRejected s.nextId error)).transactionFormik.values =
        s.transactionFormik.values ∧
      (step lib (step lib s .submitTransaction)
          (.addTransactionRejected s.nextId error)).transactionFormik.touched =
        (step lib s .submitTransaction).transactionFormik.touched ∧
      (step lib (step lib s .submitTransaction)
          (.addTransactionRejected s.nextId error)).transactionFormik.errors =
        (step lib s .submitTransaction).transactionFormik.errors ∧
      (step lib (step lib s .submitTransaction) (.addTransactionRejected s.nextId error)).effects =
        (step lib s .submitTransaction).effects ∧
      tranErrorNotice
          (step lib (step lib s .submitTransaction) (.addTransactionRejected s.nextId error)) =
        some (tranErrorMessage error) ∧
      (step lib (step lib (step lib s .submitTransaction) (.addTransactionRejected s.nextId error))
          .submitTransaction).effects =
        (step lib s .submitTransaction).effects ++
          [.addTransactionAPI (s.nextId + 1) s.transactionFormik.values]) := by
  constructor
  · intro h
    have hfl := submitCategory_inFlight s h
    have h1 : step lib s .submitCategory = submitCategory s := rfl
    have h2 : step lib (submitCategory s) (.addCategoryRejected s.nextId error) =
        addCategoryRejected (submitCategory s) s.nextId error := rfl
    have hv : (submitCategory s).categoryFormik.values = s.categoryFormik.values :=
      (submitCategory_formik s).2.2
    have hn : (submitCategory s).nextId = s.nextId + 1 := by
      rw [submitCategory_of_valid s h]
    rw [h1, h2, addCategoryRejected_of_mem _ _ _ hfl.1]
    refine ⟨by rw [submitCategory_of_valid s h], hv, rfl, rfl, rfl, ?_, ?_⟩
    · simp [catErrorNotice, isCatAddErr, hfl.2]
    · have h3 : ∀ t : State, step lib t .submitCategory = submitCategory t := fun _ => rfl
      rw [h3, submitCategory_of_valid _ (by rw [← hv] at h; exact h)]
      show (submitCategory s).effects ++
        [Effect.addCategoryAPI (submitCategory s).nextId (submitCategory s).categoryFormik.values] = _
      rw [hv, hn]
  · intro h
    have hfl := submitTransaction_inFlight lib s h
    have h1 : step lib s .submitTransaction = submitTransaction lib s := rfl
    have h2 : step lib (submitTransaction lib s) (.addTransactionRejected s.nextId error) =
        addTransactionRejected (submitTransaction lib s) s.nextId error := rfl
    have hv : (submitTransaction lib s).transactionFormik.values = s.transactionFormik.values :=
      (submitTransaction_formik lib s).2.2
    have hn : (submitTransaction lib s).nextId = s.nextId + 1 := by
      rw [submitTransaction_of_valid lib s h]
    rw [h1, h2, addTransactionRejected_of_mem _ _ _ hfl.1]
    refine ⟨by rw [submitTransaction_of_valid lib s h], hv, rfl, rfl, rfl, ?_, ?_⟩
    · simp [tranErrorNotice, isTranErr, hfl.2]
    · have h3 : ∀ t : State, step lib t .submitTransaction = submitTransaction lib t :=
        fun _ => rfl
      rw [h3, submitTransaction_of_valid lib _ (by rw [← hv] at h; exact h)]
      show (submitTransaction lib s).effects ++
        [Effect.addTransactionAPI (submitTransaction lib s).nextId
          (submitTransaction lib s).transactionFormik.values] = _
      rw [hv, hn]

/-- Witness of C9: "Groceries"/"expense" is sent, rejected, and sent again. -/
theorem c9_rejection_keeps_form_witness :
    (step DateLib.dateOnly
      (step DateLib.dateOnly
        { State.initial with categoryFormik :=
            { categoryFormikInitial with values := { name := "Groceries", type := "expense" } } }
        .submitCategory)
      (.addCategoryRejected 0 .undefined)).categoryFormik.values =
      { name := "Groceries", type := "expense" } ∧
    (step DateLib.dateOnly
      (step DateLib.dateOnly
        (step DateLib.dateOnly
          { State.initial with categoryFormik :=
              { categoryFormikInitial with values := { name := "Groceries", type := "expense" } } }
          .submitCategory)
        (.addCategoryRejected 0 .undefined))
      .submitCategory).effects =
      [.addCategoryAPI 0 { name := "Groceries", type := "expense" },
        .addCategoryAPI 1 { name := "Groceries", type := "expense" }] :=
  ⟨((c9_rejection_keeps_form DateLib.dateOnly
      { State.initial with categoryFormik :=
          { categoryFormikInitial with values := { name := "Groceries", type := "expense" } } }
      .undefined).1 (by decide)).2.1,
    ((c9_rejection_keeps_form DateLib.dateOnly
      { State.initial with categoryFormik :=
          { categoryFormikInitial with values := { name := "Groceries", type := "expense" } } }
      .undefined).1 (by decide)).2.2.2.2.2.2⟩

/-- C10: each workflow starts idle.  From every state (idle, success or error
included) a submit of valid values makes the workflow pending and issues
exactly one call of its create operation, with the values of the form as
payload; success of that call makes the workflow successful, rejection makes it
failed, and neither adds a call (no retry).  No reachable state is terminal:
a pending workflow of a reachable state follows a call that is still in flight,
whose settlement moves it on, and from every state the form can be filled in
and submitted again (for the transaction form, with any date the date cast
accepts).  In every state at most one of the success notice and the error
notice of a form is shown. -/
theorem c10_workflow_state_machine (lib : DateLib) (date : String)
    (hdate : date ≠ "" ∧ lib.castValid date = true) :
    (State.initial.catMutation.status = .idle ∧ State.initial.tranMutation.status = .idle) ∧
    (∀ s : State, (categoryValidationSchema s.categoryFormik.values).isEmpty = true →
      (step lib s .submitCategory).catMutation.status = .pending ∧
      (step lib s .submitCategory).effects =
        s.effects ++ [.addCategoryAPI s.nextId s.categoryFormik.values] ∧
      (step lib (step lib s .submitCategory)
        (.addCategoryResolved s.nextId)).catMutation.status = .success ∧
      categoryCalls (step lib (step lib s .submitCategory)
          (.addCategoryResolved s.nextId)).effects =
        categoryCalls s.effects ++ [s.categoryFormik.values] ∧
      ∀ error : JSValue,
        (step lib (step lib s .submitCategory)
          (.addCategoryRejected s.nextId error)).catMutation.status = .error ∧
        categoryCalls (step lib (step lib s .submitCategory)
            (.addCategoryRejected s.nextId error)).effects =
          categoryCalls s.effects ++ [s.categoryFormik.values]) ∧
    (∀ s : State, (transactionValidationSchema lib s.transactionFormik.values).isEmpty = true →
      (step lib s .submitTransaction).tranMutation.status = .pending ∧
      (step lib s .submitTransaction).effects =
        s.effects ++ [.addTransactionAPI s.nextId s.transactionFormik.values] ∧
      (step lib (step lib s .submitTransaction)
        (.addTransactionResolved s.nextId)).tranMutation.status = .success ∧
      transactionCalls (step lib (step lib s .submitTransaction)
          (.addTransactionResolved s.nextId)).effects =
        transactionCalls s.effects ++ [s.transactionFormik.values] ∧
      ∀ error : JSValue,
        (step lib (step lib s .submitTransaction)
          (.addTransactionRejected s.nextId error)).tranMutation.status = .error ∧
        transactionCalls (step lib (step lib s .submitTransaction)
            (.addTransactionRejected s.nextId error)).effects =
          transactionCalls s.effects ++ [s.transactionFormik.values]) ∧
    (∀ s : State, Reachable lib s →
      (s.catMutation.status = .pending →
        ∃ id, id ∈ s.catInFlight ∧
          (step lib s (.addCategoryResolved id)).catMutation.status = .success ∧
          ∀ error, (step lib s (.addCategoryRejected id error)).catMutation.status = .error) ∧
      (s.tranMutation.status = .pending →
        ∃ id, id ∈ s.tranInFlight ∧
          (step lib s (.addTransactionResolved id)).tranMutation.status = .success ∧
          ∀ error,
            (step lib s (.addTransactionRejected id error)).tranMutation.status = .error)) ∧
    (∀ s : State,
      (step lib (step lib (step lib s (.changeCategoryName "Groceries"))
        (.changeCategoryType "expense")) .submitCategory).catMutation.status = .pending ∧
      (step lib (step lib (step lib s (.changeCategoryName "Groceries"))
        (.changeCategoryType "expense")) .submitCategory).effects =
        s.effects ++ [.addCategoryAPI s.nextId { name := "Groceries", type := "expense" }] ∧
      (step lib (step lib (step lib (step lib (step lib s (.changeTransactionType "expense"))
        (.changeTransactionAmount (.num 1))) (.changeTransactionCategory "Groceries"))
        (.changeTransactionDate date)) .submitTransaction).tranMutation.status = .pending ∧
      (step lib (step lib (step lib (step lib (step lib s (.changeTransactionType "expense"))
        (.changeTransactionAmount (.num 1))) (.changeTransactionCategory "Groceries"))
        (.changeTransactionDate date)) .submitTransaction).effects =
        s.effects ++ [.addTransactionAPI s.nextId
          ⟨"expense", .num 1, "Groceries", date, s.transactionFormik.values.description⟩]) ∧
    (∀ s : State,
      ¬ ((catSuccessNotice s).isSome = true ∧ (catErrorNotice s).isSome = true) ∧
      ¬ ((tranSuccessNotice s).isSome = true ∧ (tranErrorNotice s).isSome = true)) := by
  refine ⟨⟨rfl, rfl⟩, ?_, ?_, ?_, ?_, ?_⟩
  · intro s h
    have hfl := submitCategory_inFlight s h
    have h1 : step lib s .submitCategory = submitCategory s := rfl
    have h2 : step lib (submitCategory s) (.addCategoryResolved s.nextId) =
        addCategoryResolved (submitCategory s) s.nextId := rfl
    have he : (submitCategory s).effects =
        s.effects ++ [.addCategoryAPI s.nextId s.categoryFormik.values] := by
      rw [submitCategory_of_valid s h]
    rw [h1, h2, addCategoryResolved_of_mem _ _ hfl.1]
    refine ⟨by rw [submitCategory_of_valid s h], he, by simp [hfl.2], ?_, ?_⟩
    · show categoryCalls ((submitCategory s).effects ++ [Effect.refetchCategories]) = _
      rw [he, categoryCalls_append, categoryCalls_append]
      simp [categoryCalls]
    · intro error
      have h3 : step lib (submitCategory s) (.addCategoryRejected s.nextId error) =
          addCategoryRejected (submitCategory s) s.nextId error := rfl
      rw [h3, addCategoryRejected_of_mem _ _ _ hfl.1]
      refine ⟨by simp [hfl.2], ?_⟩
      show categoryCalls (submitCategory s).effects = _
      rw [he, categoryCalls_append]
      simp [categoryCalls]
  · intro s h
    have hfl := submitTransaction_inFlight lib s h
    have h1 : step lib s .submitTransaction = submitTransaction lib s := rfl
    have h2 : step lib (submitTransaction lib s) (.addTransactionResolved s.nextId) =
        addTransactionResolved (submitTransaction lib s) s.nextId := rfl
    have he : (submitTransaction lib s).effects =
        s.effects ++ [.addTransactionAPI s.nextId s.transactionFormik.values] := by
      rw [submitTransaction_of_valid lib s h]
    rw [h1, h2, addTransactionResolved_of_mem _ _ hfl.1]
    refine ⟨by rw [submitTransaction_of_valid lib s h], he, by simp [hfl.2], ?_, ?_⟩
    · show transactionCalls ((submitTransaction lib s).effects ++ [Effect.navigate "/dashboard"]) = _
      rw [he, transactionCalls_append, transactionCalls_append]
      simp [transactionCalls]
    · intro error
      have h3 : step lib (submitTransaction lib s) (.addTransactionRejected s.nextId error) =
          addTransactionRejected (submitTransaction lib s) s.nextId error := rfl
      rw [h3, addTransactionRejected_of_mem _ _ _ hfl.1]
      refine ⟨by simp [hfl.2], ?_⟩
      show transactionCalls (submitTransaction lib s).effects = _
      rw [he, transactionCalls_append]
      simp [transactionCalls]
  · intro s hr
    have hinv := pendingInFlight_of_reachable lib s hr
    constructor
    · intro hp
      obtain ⟨id, hc, hm⟩ := hinv.1 hp
      refine ⟨id, hm, ?_, ?_⟩
      · show (addCategoryResolved s id).catMutation.status = _
        rw [addCategoryResolved_of_mem s id hm]; simp [hc]
      · intro error
        show (addCategoryRejected s id error).catMutation.status = _
        rw [addCategoryRejected_of_mem s id error hm]; simp [hc]
    · intro hp
      obtain ⟨id, hc, hm⟩ := hinv.2 hp
      refine ⟨id, hm, ?_, ?_⟩
      · show (addTransactionResolved s id).tranMutation.status = _
        rw [addTransactionResolved_of_mem s id hm]; simp [hc]
      · intro error
        show (addTransactionRejected s id error).tranMutation.status = _
        rw [addTransactionRejected_of_mem s id error hm]; simp [hc]
  · intro s
    have hc : (categoryValidationSchema
        (step lib (step lib s (.changeCategoryName "Groceries"))
          (.changeCategoryType "expense")).categoryFormik.values).isEmpty = true := by
      show (categoryValidationSchema { name := "Groceries", type := "expense" }).isEmpty = true
      decide
    have ht : (transactionValidationSchema lib
        (step lib (step lib (step lib (step lib s (.changeTransactionType "expense"))
          (.changeTransactionAmount (.num 1))) (.changeTransactionCategory "Groceries"))
          (.changeTransactionDate date)).transactionFormik.values).isEmpty = true := by
      show (transactionValidationSchema lib
        ⟨"expense", .num 1, "Groceries", date, s.transactionFormik.values.description⟩).isEmpty = true
      rw [transactionValid_iff]
      have hg : ("Groceries" : String) ≠ "" := by decide
      exact ⟨Or.inr rfl, ⟨1, rfl, by norm_num⟩, hg, hdate.1, hdate.2⟩
    have h3 : ∀ t : State, step lib t .submitCategory = submitCategory t := fun _ => rfl
    have h4 : ∀ t : State, step lib t .submitTransaction = submitTransaction lib t := fun _ => rfl
    rw [h3, h4, submitCategory_of_valid _ hc, submitTransaction_of_valid lib _ ht]
    exact ⟨rfl, rfl, rfl, rfl⟩
  · intro s
    constructor
    · rintro ⟨h1, h2⟩
      cases hs : s.catMutation.status <;> simp [catSuccessNotice, catErrorNotice, isCatSuccess, isCatAddErr, hs] at h1 h2
    · rintro ⟨h1, h2⟩
      cases hs : s.tranMutation.status <;> simp [tranSuccessNotice, tranErrorNotice, isTranSuccess, isTranErr, hs] at h1 h2

/-- Witness of C10 with the date "2024-01-15": a first submit from the initial
state is resolved, and the form is filled in and submitted again. -/
theorem c10_workflow_state_machine_witness :
    ("2024-01-15" ≠ "" ∧ DateLib.dateOnly.castValid "2024-01-15" = true) ∧
    (step DateLib.dateOnly
      (step DateLib.dateOnly
        { State.initial with categoryFormik :=
            { categoryFormikInitial with values := { name := "Salary", type := "income" } } }
        .submitCategory)
      (.addCategoryResolved 0)).catMutation.status = .success ∧
    (step DateLib.dateOnly
      (step DateLib.dateOnly
        (step DateLib.dateOnly
          (step DateLib.dateOnly
            (step DateLib.dateOnly
              { State.initial with categoryFormik :=
                  { categoryFormikInitial with values := { name := "Salary", type := "income" } } }
              .submitCategory)
            (.addCategoryResolved 0))
          (.changeCategoryName "Groceries"))
        (.changeCategoryType "expense"))
      .submitCategory).catMutation.status = .pending :=
  ⟨⟨by decide, by decide⟩,
    ((c10_workflow_state_machine DateLib.dateOnly "2024-01-15" ⟨by decide, by decide⟩).2.1
      { State.initial with categoryFormik :=
          { categoryFormikInitial with values := { name := "Salary", type := "income" } } }
      (by decide)).2.2.1,
    ((c10_workflow_state_machine DateLib.dateOnly "2024-01-15" ⟨by decide, by decide⟩).2.2.2.2.1
      (step DateLib.dateOnly
        (step DateLib.dateOnly
          { State.initial with categoryFormik :=
              { categoryFormikInitial with values := { name := "Salary", type := "income" } } }
          .submitCategory)
        (.addCategoryResolved 0))).1⟩

end TransactionForm
